import Mathlib

/-!
Verification of the shopping-cart agent repository: a shallow embedding of
`src/assistants.py` (assistant invocation and result normalization) and
`src/web_search_mcp.py` (search tool provider selection/fallback logic),
with theorems settling the specification claims.
-/

/-- Chat message object, standing for langchain `BaseMessage` instances
(role tag plus textual content). -/
structure Message where
  role : String
  content : String
deriving DecidableEq, Repr

/-- Synthetic assistant message, standing for `AIMessage(content=...)`. -/
def AIMessage (content : String) : Message :=
  { role := "ai", content := content }

/-- Dynamic Python value, covering the shapes the assistant code inspects:
message objects, strings, integers, `None`, lists, and string-keyed dicts
(modelled as association lists, first binding wins on lookup). -/
inductive PyObj where
  | message : Message → PyObj
  | pyStr : String → PyObj
  | pyInt : Int → PyObj
  | pyNone : PyObj
  | pyList : List PyObj → PyObj
  | pyDict : List (String × PyObj) → PyObj

/-- Quote a string the way Python `repr` does (single quotes). -/
def py_quote (s : String) : String := "\x27" ++ s ++ "\x27"

mutual

/-- Python `repr()` of a value, modelled for the shapes in `PyObj`. -/
def py_repr : PyObj → String
  | .message m => "AIMessage(content=" ++ py_quote m.content ++ ")"
  | .pyStr s => py_quote s
  | .pyInt n => toString n
  | .pyNone => "None"
  | .pyList xs => "[" ++ py_repr_list xs ++ "]"
  | .pyDict es => "\x7b" ++ py_repr_entries es ++ "\x7d"

/-- Comma-separated `repr`s of list elements. -/
def py_repr_list : List PyObj → String
  | [] => ""
  | [x] => py_repr x
  | x :: y :: rest => py_repr x ++ ", " ++ py_repr_list (y :: rest)

/-- Comma-separated `repr`s of dict entries. -/
def py_repr_entries : List (String × PyObj) → String
  | [] => ""
  | [(k, v)] => py_quote k ++ ": " ++ py_repr v
  | (k, v) :: e :: rest => py_quote k ++ ": " ++ py_repr v ++ ", " ++ py_repr_entries (e :: rest)

end

/-- Python `str()` of a value: like `repr` except a bare string prints
without quotes. -/
def py_str : PyObj → String
  | .pyStr s => s
  | o => py_repr o

/-- Test for `isinstance(x, BaseMessage)`. -/
def is_message : PyObj → Bool
  | .message _ => true
  | _ => false

/-- Test for `isinstance(x, list)`. -/
def is_list : PyObj → Bool
  | .pyList _ => true
  | _ => false

/-- Test for `x is None`. -/
def is_none : PyObj → Bool
  | .pyNone => true
  | _ => false

/-- Test for `isinstance(x, dict) and "messages" in x`. -/
def is_dict_with_messages : PyObj → Bool
  | .pyDict es => (List.lookup "messages" es).isSome
  | _ => false

/-- Test whether a value is a list all of whose elements are messages. -/
def is_message_list : PyObj → Bool
  | .pyList xs => xs.all is_message
  | _ => false

/-- Value under the `messages` key of a returned mapping (`None` when
absent or when the value is not a mapping). -/
def messages_value : PyObj → PyObj
  | .pyDict es => (List.lookup "messages" es).getD .pyNone
  | _ => .pyNone

/-- Python exceptions distinguished by the embedded code: attribute, key
and type errors from config access, the type error from calling
langchain's `tool` decorator with its unsupported `name=` keyword, the
value error it raises on a docstring-less tool function, and a catch-all
for any other integration failure. -/
inductive PyErr where
  | attributeError
  | keyError
  | typeError
  | valueError
  | otherError
deriving DecidableEq, Repr

/-- Python `obj.get(key, default)`: defaulted lookup on a dict; calling
`.get` on any non-dict raises `AttributeError`. -/
def py_get (o : PyObj) (key : String) (dflt : PyObj) : Except PyErr PyObj :=
  match o with
  | .pyDict es => .ok ((List.lookup key es).getD dflt)
  | _ => .error .attributeError

/-- Python `obj[key]` with a string key: raises `KeyError` when a dict
lacks the key and `TypeError` when the value is not a dict. -/
def py_subscript (o : PyObj) (key : String) : Except PyErr PyObj :=
  match o with
  | .pyDict es =>
    match List.lookup key es with
    | some v => .ok v
    | none => .error .keyError
  | _ => .error .typeError

/-- Modelled from the spec: the fixed default user id constant
`DEFAULT_USER_ID` imported from `src/tools.py`, a file not present in the
sources; the spec calls it "a fixed default user id" and its concrete
value is irrelevant to every claim. -/
def DEFAULT_USER_ID : String := "default-user"

/-- The sales assistant's guarded thread-id lookup:
`config.get("configurable", {}).get("thread_id", None)`. -/
def sales_thread_lookup (config : PyObj) : Except PyErr PyObj :=
  match py_get config "configurable" (.pyDict []) with
  | .error e => .error e
  | .ok sub => py_get sub "thread_id" .pyNone

/-- Thread-id resolution in `sales_assistant`: the lookup runs inside
`try/except AttributeError` with the caught case producing `None`, and a
`None` thread id is replaced by `"default-thread"`. -/
def sales_thread_id (config : PyObj) : Except PyErr PyObj :=
  match sales_thread_lookup config with
  | .error .attributeError => .ok (.pyStr "default-thread")
  | .error e => .error e
  | .ok v => .ok (if is_none v then .pyStr "default-thread" else v)

/-- Thread-id resolution in `support_assistant`:
`config["configurable"]["thread_id"]`, unguarded. -/
def support_resolve_thread (config : PyObj) : Except PyErr PyObj :=
  match py_subscript config "configurable" with
  | .error e => .error e
  | .ok sub => py_subscript sub "thread_id"

/-- Normalization of the pipeline result in `sales_assistant` (lines
93-107): dict-with-messages passes its value through; a single message is
wrapped in a one-element list; an all-message list passes through; any
other list is wrapped as one `AIMessage` of its `str()`; anything else is
wrapped as one `AIMessage` of its `str()`. -/
def sales_normalize (result : PyObj) : PyObj :=
  match result with
  | .pyDict es =>
    match List.lookup "messages" es with
    | some v => .pyDict [("messages", v)]
    | none => .pyDict [("messages", .pyList [.message (AIMessage (py_str (.pyDict es)))])]
  | .message m => .pyDict [("messages", .pyList [.message m])]
  | .pyList xs =>
    if xs.all is_message then .pyDict [("messages", .pyList xs)]
    else .pyDict [("messages", .pyList [.message (AIMessage (py_str (.pyList xs)))])]
  | r => .pyDict [("messages", .pyList [.message (AIMessage (py_str r))])]

/-- Result construction in `support_assistant` (line 112): the raw
pipeline return value becomes the `messages` value, with no normalization. -/
def support_normalize (result : PyObj) : PyObj :=
  .pyDict [("messages", result)]

/-- Observable side effects of one assistant invocation, in order. -/
inductive Event where
  | setThread : PyObj → Event
  | setUser : String → Event
  | invokePipeline : Event

/-- Test whether an event is a user-context write (`set_user_id`). -/
def is_set_user : Event → Bool
  | .setUser _ => true
  | _ => false

/-- Test whether an event is any context write (`set_thread_id` or
`set_user_id`). -/
def is_context_write : Event → Bool
  | .setThread _ => true
  | .setUser _ => true
  | .invokePipeline => false

/-- The `sales_assistant` node: resolve the thread id, record thread and
user context, invoke the pipeline (its return value is the parameter
`pipelineResult`), and normalize. Returns the event trace together with
the returned mapping. -/
def sales_assistant (config : PyObj) (pipelineResult : PyObj) :
    Except PyErr (List Event × PyObj) :=
  match sales_thread_id config with
  | .error e => .error e
  | .ok tid =>
    .ok ([.setThread tid, .setUser DEFAULT_USER_ID, .invokePipeline],
         sales_normalize pipelineResult)

/-- The `support_assistant` node: subscript the thread id out of the
config (propagating any error), record it, invoke the pipeline, and wrap
the raw result. -/
def support_assistant (config : PyObj) (pipelineResult : PyObj) :
    Except PyErr (List Event × PyObj) :=
  match support_resolve_thread config with
  | .error e => .error e
  | .ok tid =>
    .ok ([.setThread tid, .invokePipeline], support_normalize pipelineResult)

/-- Presence of the full key path `config["configurable"]["thread_id"]`. -/
def has_thread_path (config : PyObj) : Bool :=
  match config with
  | .pyDict es =>
    match List.lookup "configurable" es with
    | some (.pyDict inner) => (List.lookup "thread_id" inner).isSome
    | _ => false
  | _ => false

/-- Drop leading whitespace characters. -/
def drop_ws : List Char → List Char
  | [] => []
  | c :: t => if c.isWhitespace then drop_ws t else c :: t

/-- Python `str.strip()`: remove leading and trailing whitespace. -/
def py_strip (s : String) : String :=
  String.mk (List.reverse (drop_ws (List.reverse (drop_ws s.data))))

/-- Search tool: a name together with its per-call behavior (query in,
text result out). -/
structure SearchTool where
  name : String
  run : String → String

/-- The fixed message returned when the search credential is missing. -/
def UNAVAILABLE_MSG : String := "Web search is unavailable: missing BRAVE_API_KEY."

/-- Outcome of the live MCP integration attempt: either some exception is
raised during import, client setup or tool discovery, or discovery
returns tool metadata (each with an optional name attribute). -/
inductive McpOutcome where
  | raises
  | discovered : List (Option String) → McpOutcome

/-- Test whether `needle` is an initial segment of `hay`. -/
def chars_start_with : List Char → List Char → Bool
  | [], _ => true
  | _ :: _, [] => false
  | a :: as, b :: bs => a = b && chars_start_with as bs

/-- Test whether `needle` occurs contiguously inside `hay`. -/
def chars_have_sub (needle : List Char) : List Char → Bool
  | [] => needle.isEmpty
  | c :: t => chars_start_with needle (c :: t) || chars_have_sub needle t

/-- Python `needle in hay` on strings: substring containment. -/
def str_has_sub (hay needle : String) : Bool :=
  chars_have_sub needle.data hay.data

/-- Shape of a `@tool` decorator application in `web_search_mcp.py`:
with the `name=` keyword, with a positional name, or bare. -/
inductive ToolForm where
  | kwName : String → ToolForm
  | positional : String → ToolForm
  | bare : ToolForm

/-- langchain's `tool` decorator applied to a function: the `name=`
keyword is not a parameter of the decorator, so that form raises
`TypeError` at once; otherwise a function without a docstring raises
`ValueError` ("Function must have a docstring if description not
provided"); a bare `@tool()` names the tool after the function. -/
def lc_tool (form : ToolForm) (fname : String) (has_docstring : Bool)
    (run : String → String) : Except PyErr SearchTool :=
  match form with
  | .kwName _ => .error .typeError
  | .positional n =>
    if has_docstring then .ok { name := n, run := run } else .error .valueError
  | .bare =>
    if has_docstring then .ok { name := fname, run := run } else .error .valueError

/-- The wrapping loop of `_load_brave_tool`'s try block: skip metadata
without a name or whose lowercased name lacks "brave", and wrap each
remaining tool with a bare `@tool()` on the docstring-less `_wrapped`
function. -/
def wrap_selected (remote : String → String → String) :
    List (Option String) → Except PyErr (List SearchTool)
  | [] => .ok []
  | meta :: rest =>
    match meta with
    | none => wrap_selected remote rest
    | some n =>
      if str_has_sub n.toLower "brave" then
        match lc_tool .bare "_wrapped" false (remote n) with
        | .error e => .error e
        | .ok t =>
          match wrap_selected remote rest with
          | .error e => .error e
          | .ok ts => .ok (t :: ts)
      else wrap_selected remote rest

/-- The try block of `_load_brave_tool` (credential present): any
import/setup/discovery exception surfaces; otherwise the discovered
tools are wrapped, and if none qualify, a single stub is built by
`@tool("brave_web_search")` on the docstring-less
`brave_web_search_stub`. -/
def load_brave_try (mcp : McpOutcome) (remote : String → String → String) :
    Except PyErr (List SearchTool) :=
  match mcp with
  | .raises => .error .otherError
  | .discovered metas =>
    match wrap_selected remote metas with
    | .error e => .error e
    | .ok selected =>
      if selected.isEmpty then
        match lc_tool (.positional "brave_web_search") "brave_web_search_stub" false
            (fun query => "[brave] (stub) search results for: " ++ query) with
        | .error e => .error e
        | .ok t => .ok [t]
      else .ok selected

/-- The async provider `_load_brave_tool`. `env_key` is
`os.environ.get("BRAVE_API_KEY", "")`; `mcp` is the outcome of the live
integration attempt; `remote` gives the per-call behavior of a wrapped
remote tool (by discovered tool name). Keys are stripped; with no key
the unavailable tool is built by `@tool(name=...)` on a docstring-less
function (line 34, before the try); with a key, any exception in the try
block falls to the `except Exception` handler, which builds the two
fallback stubs with `@tool("brave_web_search")` on a docstring-less
function (lines 116-118) and `@tool(name="brave_news_search")`
(line 122); an error raised by either construction propagates. -/
def load_brave_tool (env_key : String) (mcp : McpOutcome)
    (remote : String → String → String) : Except PyErr (List SearchTool) :=
  let brave_api_key := py_strip env_key
  if brave_api_key = "" then
    match lc_tool (.kwName "brave_web_search_unavailable") "brave_web_search_unavailable"
        false (fun _ => UNAVAILABLE_MSG) with
    | .error e => .error e
    | .ok t => .ok [t]
  else
    match load_brave_try mcp remote with
    | .ok tools => .ok tools
    | .error _ =>
      match lc_tool (.positional "brave_web_search") "brave_web_search_stub" false
          (fun query => "[brave] (fallback) search results for: " ++ query) with
      | .error e => .error e
      | .ok t1 =>
        match lc_tool (.kwName "brave_news_search") "brave_news_search_stub" false
            (fun query => "[brave-news] (fallback) search results for: " ++ query) with
        | .error e => .error e
        | .ok t2 => .ok [t1, t2]

/-- The sync provider `get_brave_web_search_tool_sync`: never touches the
live integration; returns the general and news tools, each checking the
captured (stripped) credential per call. -/
def get_brave_web_search_tool_sync (env_key : String) : List SearchTool :=
  let api_key := py_strip env_key
  [{ name := "brave_web_search",
     run := fun query =>
       if api_key = "" then UNAVAILABLE_MSG
       else "[brave] search results for: " ++ query },
   { name := "brave_news_search",
     run := fun query =>
       if api_key = "" then UNAVAILABLE_MSG
       else "[brave-news] search results for: " ++ query }]

/-! Helper lemmas shared by the claim theorems. -/

theorem chars_start_with_refl : ∀ l : List Char, chars_start_with l l = true := by
  intro l
  induction l with
  | nil => rfl
  | cons a t ih => simp [chars_start_with, ih]

theorem chars_have_sub_append : ∀ (pre n : List Char), chars_have_sub n (pre ++ n) = true := by
  intro pre n
  induction pre with
  | nil =>
    cases n with
    | nil => rfl
    | cons c t => simp [chars_have_sub, chars_start_with_refl]
  | cons a t ih => simp [chars_have_sub, ih]

theorem str_has_sub_append (pre q : String) : str_has_sub (pre ++ q) q = true := by
  show chars_have_sub q.data (pre ++ q).data = true
  have h : (pre ++ q).data = pre.data ++ q.data := rfl
  rw [h]
  exact chars_have_sub_append _ _

theorem sales_default_of_no_path (config : PyObj) (h : has_thread_path config = false) :
    sales_thread_id config = .ok (.pyStr "default-thread") := by
  cases config with
  | pyDict es =>
    cases hc : List.lookup "configurable" es with
    | none => simp [sales_thread_id, sales_thread_lookup, py_get, hc, is_none]
    | some v =>
      cases v with
      | pyDict inner =>
        cases ht : List.lookup "thread_id" inner with
        | none => simp [sales_thread_id, sales_thread_lookup, py_get, hc, ht, is_none]
        | some w => simp [has_thread_path, hc, ht] at h
      | message m => simp [sales_thread_id, sales_thread_lookup, py_get, hc]
      | pyStr s => simp [sales_thread_id, sales_thread_lookup, py_get, hc]
      | pyInt n => simp [sales_thread_id, sales_thread_lookup, py_get, hc]
      | pyNone => simp [sales_thread_id, sales_thread_lookup, py_get, hc]
      | pyList xs => simp [sales_thread_id, sales_thread_lookup, py_get, hc]
  | message m => rfl
  | pyStr s => rfl
  | pyInt n => rfl
  | pyNone => rfl
  | pyList xs => rfl

theorem support_error_of_no_path (config : PyObj) (h : has_thread_path config = false) :
    ∃ e, support_resolve_thread config = .error e := by
  cases config with
  | pyDict es =>
    cases hc : List.lookup "configurable" es with
    | none => exact ⟨.keyError, by simp [support_resolve_thread, py_subscript, hc]⟩
    | some v =>
      cases v with
      | pyDict inner =>
        cases ht : List.lookup "thread_id" inner with
        | none => exact ⟨.keyError, by simp [support_resolve_thread, py_subscript, hc, ht]⟩
        | some w => simp [has_thread_path, hc, ht] at h
      | message m => exact ⟨.typeError, by simp [support_resolve_thread, py_subscript, hc]⟩
      | pyStr s => exact ⟨.typeError, by simp [support_resolve_thread, py_subscript, hc]⟩
      | pyInt n => exact ⟨.typeError, by simp [support_resolve_thread, py_subscript, hc]⟩
      | pyNone => exact ⟨.typeError, by simp [support_resolve_thread, py_subscript, hc]⟩
      | pyList xs => exact ⟨.typeError, by simp [support_resolve_thread, py_subscript, hc]⟩
  | message m => exact ⟨.typeError, rfl⟩
  | pyStr s => exact ⟨.typeError, rfl⟩
  | pyInt n => exact ⟨.typeError, rfl⟩
  | pyNone => exact ⟨.typeError, rfl⟩
  | pyList xs => exact ⟨.typeError, rfl⟩

theorem sales_thread_id_ok (config : PyObj) : ∃ v, sales_thread_id config = .ok v := by
  cases config with
  | pyDict es =>
    cases hc : List.lookup "configurable" es with
    | none =>
      exact ⟨.pyStr "default-thread",
             by simp [sales_thread_id, sales_thread_lookup, py_get, hc, is_none]⟩
    | some v =>
      cases v with
      | pyDict inner =>
        cases ht : List.lookup "thread_id" inner with
        | none =>
          exact ⟨.pyStr "default-thread",
                 by simp [sales_thread_id, sales_thread_lookup, py_get, hc, ht, is_none]⟩
        | some w =>
          exact ⟨if is_none w then .pyStr "default-thread" else w,
                 by simp [sales_thread_id, sales_thread_lookup, py_get, hc, ht]⟩
      | message m =>
        exact ⟨.pyStr "default-thread",
               by simp [sales_thread_id, sales_thread_lookup, py_get, hc]⟩
      | pyStr s =>
        exact ⟨.pyStr "default-thread",
               by simp [sales_thread_id, sales_thread_lookup, py_get, hc]⟩
      | pyInt n =>
        exact ⟨.pyStr "default-thread",
               by simp [sales_thread_id, sales_thread_lookup, py_get, hc]⟩
      | pyNone =>
        exact ⟨.pyStr "default-thread",
               by simp [sales_thread_id, sales_thread_lookup, py_get, hc]⟩
      | pyList xs =>
        exact ⟨.pyStr "default-thread",
               by simp [sales_thread_id, sales_thread_lookup, py_get, hc]⟩
  | message m => exact ⟨_, rfl⟩
  | pyStr s => exact ⟨_, rfl⟩
  | pyInt n => exact ⟨_, rfl⟩
  | pyNone => exact ⟨_, rfl⟩
  | pyList xs => exact ⟨_, rfl⟩

/-- C1: the sales invocation normalizes the pipeline's return value by
exactly this precedence: a mapping containing a `messages` key passes its
value through unchanged; a single message object is wrapped in a
one-element list; a sequence all of whose elements are messages passes
through unchanged; a sequence with a non-message element is wrapped as a
single synthetic assistant message holding the sequence's string
representation; anything else is wrapped as a single synthetic assistant
message holding its string representation. -/
theorem C1_sales_normalization_precedence :
    (∀ es v, List.lookup "messages" es = some v →
       sales_normalize (.pyDict es) = .pyDict [("messages", v)]) ∧
    (∀ m, sales_normalize (.message m) = .pyDict [("messages", .pyList [.message m])]) ∧
    (∀ xs, xs.all is_message = true →
       sales_normalize (.pyList xs) = .pyDict [("messages", .pyList xs)]) ∧
    (∀ xs, xs.all is_message = false →
       sales_normalize (.pyList xs) =
         .pyDict [("messages", .pyList [.message (AIMessage (py_str (.pyList xs)))])]) ∧
    (∀ r, is_dict_with_messages r = false → is_message r = false → is_list r = false →
       sales_normalize r = .pyDict [("messages", .pyList [.message (AIMessage (py_str r))])]) := by
  refine ⟨?_, ?_, ?_, ?_, ?_⟩
  · intro es v h
    simp [sales_normalize, h]
  · intro m
    rfl
  · intro xs h
    simp [sales_normalize, h]
  · intro xs h
    simp [sales_normalize, h]
  · intro r hd hm hl
    cases r with
    | pyDict es =>
      cases hlk : List.lookup "messages" es with
      | none => simp [sales_normalize, hlk]
      | some v => simp [is_dict_with_messages, hlk] at hd
    | message m => simp [is_message] at hm
    | pyList xs => simp [is_list] at hl
    | pyStr s => rfl
    | pyInt n => rfl
    | pyNone => rfl

/-- Witness for C1 at concrete pipeline results, one per precedence case. -/
theorem C1_witness :
    sales_normalize (.pyDict [("messages", .pyInt 7)]) = .pyDict [("messages", .pyInt 7)] ∧
    sales_normalize (.message (AIMessage "hi")) =
      .pyDict [("messages", .pyList [.message (AIMessage "hi")])] ∧
    sales_normalize (.pyList [.message (AIMessage "hi")]) =
      .pyDict [("messages", .pyList [.message (AIMessage "hi")])] ∧
    sales_normalize (.pyList [.pyInt 1]) =
      .pyDict [("messages", .pyList [.message (AIMessage (py_str (.pyList [.pyInt 1])))])] ∧
    sales_normalize .pyNone =
      .pyDict [("messages", .pyList [.message (AIMessage (py_str .pyNone))])] :=
  ⟨C1_sales_normalization_precedence.1 _ _ rfl,
   C1_sales_normalization_precedence.2.1 _,
   C1_sales_normalization_precedence.2.2.1 _ rfl,
   C1_sales_normalization_precedence.2.2.2.1 _ rfl,
   C1_sales_normalization_precedence.2.2.2.2 _ rfl rfl rfl⟩

/-- C3: for every malformed config (not a mapping, or lacking the
`configurable` sub-mapping, or lacking `thread_id` inside it), the sales
thread-id resolution does not raise and resolves to the fixed default
identifier "default-thread". -/
theorem C3_sales_malformed_config_default :
    ∀ config, has_thread_path config = false →
      sales_thread_id config = .ok (.pyStr "default-thread") :=
  sales_default_of_no_path

/-- Witness for C3 at a config whose `configurable` entry is not a mapping. -/
theorem C3_witness :
    has_thread_path (.pyDict [("configurable", .pyInt 1)]) = false ∧
    sales_thread_id (.pyDict [("configurable", .pyInt 1)]) = .ok (.pyStr "default-thread") :=
  ⟨rfl, C3_sales_malformed_config_default (.pyDict [("configurable", .pyInt 1)]) rfl⟩

/-- C4: for every config lacking the key path
`config["configurable"]["thread_id"]`, the support invocation propagates
an error from thread-id resolution while the sales invocation resolves
the same config to the default thread id. -/
theorem C4_support_fails_sales_recovers :
    ∀ config, has_thread_path config = false →
      (∃ e, support_resolve_thread config = .error e) ∧
      sales_thread_id config = .ok (.pyStr "default-thread") :=
  fun config h => ⟨support_error_of_no_path config h, sales_default_of_no_path config h⟩

/-- Witness for C4 at the empty config mapping. -/
theorem C4_witness :
    support_resolve_thread (.pyDict []) = .error .keyError ∧
    sales_thread_id (.pyDict []) = .ok (.pyStr "default-thread") :=
  ⟨rfl, (C4_support_fails_sales_recovers (.pyDict []) rfl).2⟩

/-- C10: when the pipeline's return value is the empty sequence, the
sales normalization passes it through unchanged as `{"messages": []}`
(the all-elements-are-messages check holds vacuously), rather than
wrapping it in a synthetic assistant message. -/
theorem C10_empty_sequence_passthrough :
    sales_normalize (.pyList []) = .pyDict [("messages", .pyList [])] ∧
    ([] : List PyObj).all is_message = true :=
  ⟨rfl, rfl⟩

/-- Counterexample to C2 as stated: the support invocation wraps the raw
pipeline result without normalization, so a single message result yields
a `messages` value that is not a sequence; the sales invocation passes an
empty list through as an empty `messages` value, and passes the value of
a `messages`-keyed mapping through even when it is not a message
sequence. -/
theorem C2_counterexample :
    support_normalize (.message (AIMessage "ok")) =
      .pyDict [("messages", .message (AIMessage "ok"))] ∧
    is_message_list (.message (AIMessage "ok")) = false ∧
    sales_normalize (.pyList []) = .pyDict [("messages", .pyList [])] ∧
    sales_normalize (.pyDict [("messages", .pyInt 3)]) = .pyDict [("messages", .pyInt 3)] ∧
    is_message_list (.pyInt 3) = false :=
  ⟨rfl, rfl, rfl, rfl, rfl⟩

/-- C2 (amended): for every pipeline return value, the sales invocation
returns a mapping containing a `messages` key; when the raw result is not
a mapping containing `messages`, that value is an ordered (possibly
empty) sequence of message objects, non-empty whenever the raw result is
not the empty sequence; when the raw result is a mapping containing
`messages`, its raw value is passed through unchanged; and the support
invocation returns a mapping whose `messages` value is the raw pipeline
result unchanged. -/
theorem C2_messages_key_invariant :
    ∀ r : PyObj,
      (∃ v, sales_normalize r = .pyDict [("messages", v)]) ∧
      (is_dict_with_messages r = false →
         is_message_list (messages_value (sales_normalize r)) = true ∧
         (r ≠ .pyList [] → messages_value (sales_normalize r) ≠ .pyList [])) ∧
      (∀ es v, r = .pyDict es → List.lookup "messages" es = some v →
         sales_normalize r = .pyDict [("messages", v)]) ∧
      support_normalize r = .pyDict [("messages", r)] := by
  intro r
  refine ⟨?_, ?_, ?_, rfl⟩
  · cases r with
    | pyDict es =>
      cases hm : List.lookup "messages" es with
      | none =>
        exact ⟨.pyList [.message (AIMessage (py_str (.pyDict es)))],
               by simp [sales_normalize, hm]⟩
      | some v => exact ⟨v, by simp [sales_normalize, hm]⟩
    | pyList xs =>
      cases hall : xs.all is_message with
      | true => exact ⟨.pyList xs, by simp [sales_normalize, hall]⟩
      | false =>
        exact ⟨.pyList [.message (AIMessage (py_str (.pyList xs)))],
               by simp [sales_normalize, hall]⟩
    | message m => exact ⟨.pyList [.message m], rfl⟩
    | pyStr s => exact ⟨.pyList [.message (AIMessage (py_str (.pyStr s)))], rfl⟩
    | pyInt n => exact ⟨.pyList [.message (AIMessage (py_str (.pyInt n)))], rfl⟩
    | pyNone => exact ⟨.pyList [.message (AIMessage (py_str .pyNone))], rfl⟩
  · intro hd
    cases r with
    | pyDict es =>
      cases hm : List.lookup "messages" es with
      | none =>
        constructor
        · simp [sales_normalize, hm, messages_value, is_message_list, is_message]
        · intro _
          simp [sales_normalize, hm, messages_value]
      | some v => simp [is_dict_with_messages, hm] at hd
    | pyList xs =>
      cases hall : xs.all is_message with
      | true =>
        constructor
        · simp [sales_normalize, hall, messages_value, is_message_list]
        · intro hne
          simpa [sales_normalize, hall, messages_value] using hne
      | false =>
        constructor
        · simp [sales_normalize, hall, messages_value, is_message_list, is_message]
        · intro _
          simp [sales_normalize, hall, messages_value]
    | message m =>
      exact ⟨by simp [sales_normalize, messages_value, is_message_list, is_message],
             by intro _; simp [sales_normalize, messages_value]⟩
    | pyStr s =>
      exact ⟨by simp [sales_normalize, messages_value, is_message_list, is_message],
             by intro _; simp [sales_normalize, messages_value]⟩
    | pyInt n =>
      exact ⟨by simp [sales_normalize, messages_value, is_message_list, is_message],
             by intro _; simp [sales_normalize, messages_value]⟩
    | pyNone =>
      exact ⟨by simp [sales_normalize, messages_value, is_message_list, is_message],
             by intro _; simp [sales_normalize, messages_value]⟩
  · intro es v hr hm
    subst hr
    simp [sales_normalize, hm]

/-- Witness for the amended C2 at a scalar pipeline result. -/
theorem C2_witness :
    is_message_list (messages_value (sales_normalize (.pyStr "x"))) = true ∧
    messages_value (sales_normalize (.pyStr "x")) ≠ .pyList [] :=
  ⟨((C2_messages_key_invariant (.pyStr "x")).2.1 rfl).1,
   ((C2_messages_key_invariant (.pyStr "x")).2.1 rfl).2 (by simp)⟩

/-- Counterexample to C9 as stated: a completed support invocation's
event trace records the thread id and invokes the pipeline but contains
no `set_user_id` write at all, so the default user id is not recorded. -/
theorem C9_counterexample :
    support_assistant (.pyDict [("configurable", .pyDict [("thread_id", .pyStr "t1")])])
        (.message (AIMessage "ok")) =
      .ok ([.setThread (.pyStr "t1"), .invokePipeline],
           .pyDict [("messages", .message (AIMessage "ok"))]) ∧
    List.all [Event.setThread (.pyStr "t1"), Event.invokePipeline]
        (fun e => !is_set_user e) = true :=
  ⟨rfl, rfl⟩

/-- C9 (amended): in every sales invocation the resolved thread id and
the fixed default user id are both recorded (set_thread_id then
set_user_id) before the pipeline is invoked and no further context writes
occur; in every support invocation that resolves its thread id, only the
thread id is recorded, before the pipeline is invoked, with no further
context writes. -/
theorem C9_context_before_pipeline :
    ∀ config r,
      (∃ tid, sales_assistant config r =
         .ok ([.setThread tid, .setUser DEFAULT_USER_ID, .invokePipeline],
              sales_normalize r)) ∧
      (∀ tid, support_resolve_thread config = .ok tid →
         support_assistant config r =
           .ok ([.setThread tid, .invokePipeline], support_normalize r)) := by
  intro config r
  constructor
  · obtain ⟨v, hv⟩ := sales_thread_id_ok config
    exact ⟨v, by simp [sales_assistant, hv]⟩
  · intro tid h
    simp [support_assistant, h]

/-- Witness for the amended C9 at concrete configs. -/
theorem C9_witness :
    support_assistant (.pyDict [("configurable", .pyDict [("thread_id", .pyStr "t1")])])
        (.pyStr "r") =
      .ok ([.setThread (.pyStr "t1"), .invokePipeline], support_normalize (.pyStr "r")) ∧
    sales_assistant (.pyInt 0) (.pyStr "r") =
      .ok ([.setThread (.pyStr "default-thread"), .setUser DEFAULT_USER_ID, .invokePipeline],
           sales_normalize (.pyStr "r")) :=
  ⟨(C9_context_before_pipeline
      (.pyDict [("configurable", .pyDict [("thread_id", .pyStr "t1")])]) (.pyStr "r")).2
      (.pyStr "t1") rfl,
   rfl⟩

theorem wrap_selected_ok_nil :
    ∀ (remote : String → String → String) (metas : List (Option String))
      (l : List SearchTool), wrap_selected remote metas = .ok l → l = [] := by
  intro remote metas
  induction metas with
  | nil =>
    intro l h
    simp [wrap_selected] at h
    exact h
  | cons meta rest ih =>
    intro l h
    cases meta with
    | none => exact ih l (by simpa [wrap_selected] using h)
    | some n =>
      by_cases hb : str_has_sub n.toLower "brave" = true
      · simp [wrap_selected, hb, lc_tool] at h
      · exact ih l (by simpa [wrap_selected, hb] using h)

/-- C5 fails on the code: with the credential absent or blank, the
provider reaches line 34, `@tool(name="brave_web_search_unavailable")`,
whose `name=` keyword langchain's decorator does not accept, and raises
`TypeError` before the try block instead of returning the single
unavailable tool that the claim (and the function's own docstring)
describes. -/
theorem C5_no_key_raises_type_error :
    ∀ mcp remote, load_brave_tool "" mcp remote = .error .typeError := by
  intro mcp remote
  rfl

/-- C6 fails on the code: with a credential present and the live
integration raising, control reaches the `except Exception` handler,
whose first stub is built by `@tool("brave_web_search")` on the
docstring-less `brave_web_search_stub` (lines 116-118) and raises
`ValueError` (line 122's `@tool(name=...)` would raise `TypeError`), so
the two fallback tools the claim describes are never returned. -/
theorem C6_fallback_path_raises_value_error :
    ∀ remote, load_brave_tool "key" .raises remote = .error .valueError := by
  intro remote
  rfl

/-- C7 fails on the code: `_load_brave_tool` propagates a failure in
every environment — `TypeError` from line 34 with no credential, and
`ValueError` from the `except` handler's own tool construction on every
credential-present path (any try-block exception, including the
`ValueError` from wrapping a docstring-less discovered or stub tool, is
caught and then re-surfaces from lines 116-118) — so it never returns
the promised non-empty tool list. -/
theorem C7_provider_always_raises :
    ∀ env mcp remote, ∃ e, load_brave_tool env mcp remote = .error e := by
  intro env mcp remote
  by_cases h : py_strip env = ""
  · exact ⟨.typeError, by simp [load_brave_tool, lc_tool, h]⟩
  · cases mcp with
    | raises =>
      exact ⟨.valueError, by simp [load_brave_tool, load_brave_try, lc_tool, h]⟩
    | discovered metas =>
      cases hw : wrap_selected remote metas with
      | error e =>
        exact ⟨.valueError, by simp [load_brave_tool, load_brave_try, lc_tool, h, hw]⟩
      | ok l =>
        have hl : l = [] := wrap_selected_ok_nil remote metas l hw
        subst hl
        exact ⟨.valueError, by simp [load_brave_tool, load_brave_try, lc_tool, h, hw]⟩

/-- C8: the synchronous provider entry point never touches the live
integration and never fails; it always returns exactly the two named
tools, each of which checks the credential per call, answering the fixed
unavailable message when the credential is blank and a synthesized
placeholder embedding the query otherwise. -/
theorem C8_sync_provider_two_named_tools :
    ∀ env q,
      (get_brave_web_search_tool_sync env).map SearchTool.name =
        ["brave_web_search", "brave_news_search"] ∧
      (py_strip env = "" →
         (get_brave_web_search_tool_sync env).map (fun t => t.run q) =
           [UNAVAILABLE_MSG, UNAVAILABLE_MSG]) ∧
      (py_strip env ≠ "" →
         (get_brave_web_search_tool_sync env).map (fun t => t.run q) =
           ["[brave] search results for: " ++ q, "[brave-news] search results for: " ++ q]) := by
  intro env q
  refine ⟨rfl, ?_, ?_⟩
  · intro h
    simp [get_brave_web_search_tool_sync, h]
  · intro h
    simp [get_brave_web_search_tool_sync, h]

/-- Witness for C8 in both the credential-absent and credential-present cases. -/
theorem C8_witness :
    (get_brave_web_search_tool_sync "").map (fun t => t.run "x") =
      [UNAVAILABLE_MSG, UNAVAILABLE_MSG] ∧
    (get_brave_web_search_tool_sync " key ").map (fun t => t.run "x") =
      ["[brave] search results for: " ++ "x", "[brave-news] search results for: " ++ "x"] :=
  ⟨(C8_sync_provider_two_named_tools "" "x").2.1 rfl,
   (C8_sync_provider_two_named_tools " key " "x").2.2 (by decide)⟩
